import Mathlib

/-!
# Verification of the `nn_builder` pytorch CNN builder

Shallow embedding of `src/nn_builder/pytorch/CNN.py`: the layer-specification
data model, the hidden-layer factory `create_hidden_layers`, the output-layer
factory `create_output_layers`, and the construction pipeline of
`Base_Network.__init__` (the pipeline itself and the input validator live in
`Base_Network.py`, which is not part of the sources; those two pieces are
modelled from the specification and say so in their doc comments).

Python exceptions are modelled by the `Except` monad with an error type that
distinguishes the exception classes the code can raise (`AssertionError`,
`ValueError`, `IndexError`, `AttributeError`).
-/

namespace NNBuilder

instance {ε α : Type _} [DecidableEq ε] [DecidableEq α] : DecidableEq (Except ε α)
  | .ok a, .ok b =>
    if h : a = b then .isTrue (by rw [h]) else .isFalse fun hc => h (Except.ok.inj hc)
  | .ok _, .error _ => .isFalse fun hc => Except.noConfusion hc
  | .error _, .ok _ => .isFalse fun hc => Except.noConfusion hc
  | .error e, .error f =>
    if h : e = f then .isTrue (by rw [h]) else .isFalse fun hc => h (Except.error.inj hc)

/-- One entry of `hidden_layers_info`: a Python list whose first element is the
layer-type tag (a string) and whose remaining elements are integers.
`args.getD i 0` plays the role of Python's `layer[i + 1]`; well-formed
specifications supply exactly the arity their tag requires, so the default is
never consulted on the inputs the claims quantify over. -/
structure SpecEntry where
  tag : String
  args : List Nat
  deriving DecidableEq, Repr

/-- The constructed layer objects: one constructor per pytorch layer class the
builder instantiates, carrying exactly the fields `CNN.py` passes to the
constructor. -/
inductive Layer where
  | conv2d (in_channels out_channels kernel_size stride padding : Nat)
  | maxPool2d (kernel_size stride padding : Nat)
  | avgPool2d (kernel_size stride padding : Nat)
  | adaptiveMaxPool2d (output_size : Nat × Nat)
  | adaptiveAvgPool2d (output_size : Nat × Nat)
  | linear (in_features out_features : Nat)
  deriving DecidableEq, Repr

/-- The Python exception classes construction can raise. -/
inductive BuildError where
  | assertionError (msg : String)
  | valueError (msg : String)
  | indexError
  | attributeError
  deriving DecidableEq, Repr

/-- Python's `str.lower()` (restricted to ASCII case mapping, which covers
every tag the builder compares against). Lean's own `String.toLower` is the
same `Char.toLower` map but is stated through `String.mapAux`, which the
kernel cannot evaluate; this definition is the directly computable form. -/
def lower (s : String) : String := ⟨s.data.map Char.toLower⟩

/-- `self.valid_cnn_hidden_layer_types` from `CNN.__init__` (a Python set;
modelled as a list, only membership is ever used). -/
def valid_cnn_hidden_layer_types : List String :=
  ["conv", "maxpool", "avgpool", "adaptivemaxpool", "adaptiveavgpool", "linear"]

/-- The message of the assertion at line 71 of `CNN.py`:
`"Layer name {} not valid, use one of {}".format(layer_name, valid_types)`. -/
def layer_name_not_valid_msg (layer_name : String) : String :=
  "Layer name " ++ layer_name ++ " not valid, use one of " ++
    String.intercalate ", " valid_cnn_hidden_layer_types

/-- `CNN.create_hidden_layers` (lines 65-90): walk `hidden_layers_info`
threading the running `in_channels` (updated only by `conv` entries), assert
each lowercased tag is valid, and dispatch on it to one of the six layer
constructors; the final `else` raises `ValueError("Wrong layer name")`. -/
def create_hidden_layers (in_channels : Nat) :
    List SpecEntry → Except BuildError (List Layer)
  | [] => .ok []
  | layer :: rest =>
    if lower layer.tag ∈ valid_cnn_hidden_layer_types then
      if lower layer.tag = "conv" then
        (create_hidden_layers (layer.args.getD 0 0) rest).map fun ls =>
          Layer.conv2d in_channels (layer.args.getD 0 0) (layer.args.getD 1 0)
            (layer.args.getD 2 0) (layer.args.getD 3 0) :: ls
      else if lower layer.tag = "maxpool" then
        (create_hidden_layers in_channels rest).map fun ls =>
          Layer.maxPool2d (layer.args.getD 0 0) (layer.args.getD 1 0)
            (layer.args.getD 2 0) :: ls
      else if lower layer.tag = "avgpool" then
        (create_hidden_layers in_channels rest).map fun ls =>
          Layer.avgPool2d (layer.args.getD 0 0) (layer.args.getD 1 0)
            (layer.args.getD 2 0) :: ls
      else if lower layer.tag = "adaptivemaxpool" then
        (create_hidden_layers in_channels rest).map fun ls =>
          Layer.adaptiveMaxPool2d (layer.args.getD 0 0, layer.args.getD 1 0) :: ls
      else if lower layer.tag = "adaptiveavgpool" then
        (create_hidden_layers in_channels rest).map fun ls =>
          Layer.adaptiveAvgPool2d (layer.args.getD 0 0, layer.args.getD 1 0) :: ls
      else if lower layer.tag = "linear" then
        (create_hidden_layers in_channels rest).map fun ls =>
          Layer.linear (layer.args.getD 0 0) (layer.args.getD 1 0) :: ls
      else
        .error (.valueError "Wrong layer name")
    else
      .error (.assertionError (layer_name_not_valid_msg (lower layer.tag)))

/-- `output_dim`: a single integer or a list of integers
(`isinstance(self.output_dim, list)` distinguishes the two). -/
inductive OutputDim where
  | int (n : Nat)
  | list (ns : List Nat)
  deriving DecidableEq, Repr

/-- Line 101 of `CNN.py`:
`if not isinstance(self.output_dim, list): self.output_dim = [self.output_dim]`. -/
def normalise_output_dim : OutputDim → List Nat
  | .int n => [n]
  | .list ns => ns

/-- The message of the `ValueError` at line 100 of `CNN.py`. -/
def dont_know_dimensions_msg : String :=
  "Don't know dimensions for output layer. Must use adaptivemaxpool, adaptiveavgpool, or linear as final output layer"

/-- `CNN.create_output_layers` (lines 92-104): inspect the last entry of
`hidden_layers_info`; for an adaptive pool read `output_size[0] * output_size[1]`
off the last constructed hidden layer, for `linear` read its `out_features`,
otherwise raise the "Don't know dimensions" `ValueError`; then normalise
`self.output_dim` to a list and build one `nn.Linear(input_dim, d)` per entry.
Returns the output layers together with the normalised `output_dim` (the
Python method mutates `self.output_dim` in place). -/
def create_output_layers (hidden_layers_info : List SpecEntry)
    (hidden_layers : List Layer) (output_dim : OutputDim) :
    Except BuildError (List Layer × List Nat) :=
  match hidden_layers_info.getLast? with
  | none => .error .indexError
  | some last_info =>
    let width : Except BuildError Nat :=
      if lower last_info.tag ∈ ["adaptivemaxpool", "adaptiveavgpool"] then
        match hidden_layers.getLast? with
        | some (.adaptiveMaxPool2d os) => .ok (os.1 * os.2)
        | some (.adaptiveAvgPool2d os) => .ok (os.1 * os.2)
        | some _ => .error .attributeError
        | none => .error .indexError
      else if lower last_info.tag = "linear" then
        match hidden_layers.getLast? with
        | some (.linear _ out_features) => .ok out_features
        | some _ => .error .attributeError
        | none => .error .indexError
      else
        .error (.valueError dont_know_dimensions_msg)
    match width with
    | .error e => .error e
    | .ok input_dim =>
      .ok ((normalise_output_dim output_dim).map fun d => Layer.linear input_dim d,
        normalise_output_dim output_dim)

/-- The constructed network object: its ordered hidden layers, its ordered
output heads, and its (normalised) `output_dim` field. -/
structure Network where
  hidden_layers : List Layer
  output_layers : List Layer
  output_dim : List Nat
  deriving DecidableEq, Repr

/-- Modelled from the spec: `Base_Network.check_cnn_hidden_layers_valid` is not
under `src/`. Per the spec the validator checks each layer tag before any
layer is created and an "Unknown tag" is "a configuration error naming the
offending tag and the set of valid tags". -/
def check_cnn_hidden_layers_valid :
    List SpecEntry → Except BuildError Unit
  | [] => .ok ()
  | layer :: rest =>
    if lower layer.tag ∈ valid_cnn_hidden_layer_types then
      check_cnn_hidden_layers_valid rest
    else
      .error (.valueError (layer_name_not_valid_msg (lower layer.tag)))

/-- Modelled from the spec: the construction pipeline of
`Base_Network.__init__` is not under `src/`. Per the spec, "construction is a
single linear pass: validate → build hidden layers → build output layers →
initialize parameters". -/
def buildCNN (input_dim : Nat) (hidden_layers_info : List SpecEntry)
    (output_dim : OutputDim) : Except BuildError Network :=
  match check_cnn_hidden_layers_valid hidden_layers_info with
  | .error e => .error e
  | .ok _ =>
    match create_hidden_layers input_dim hidden_layers_info with
    | .error e => .error e
    | .ok hidden =>
      match create_output_layers hidden_layers_info hidden output_dim with
      | .error e => .error e
      | .ok (outs, od_list) =>
        .ok { hidden_layers := hidden, output_layers := outs, output_dim := od_list }

/-- The layer kind a constructed layer object has, as the lowercased tag that
builds it. -/
def layer_kind : Layer → String
  | .conv2d .. => "conv"
  | .maxPool2d .. => "maxpool"
  | .avgPool2d .. => "avgpool"
  | .adaptiveMaxPool2d _ => "adaptivemaxpool"
  | .adaptiveAvgPool2d _ => "adaptiveavgpool"
  | .linear .. => "linear"

/-- The running `in_channels` after `create_hidden_layers` has processed the
given entries: only a `conv` entry replaces it (with its declared output
channel count); pooling and `linear` entries leave it unchanged. -/
def in_channels_before (in_channels : Nat) (entries : List SpecEntry) : Nat :=
  entries.foldl (fun c e => if lower e.tag = "conv" then e.args.getD 0 0 else c)
    in_channels

/-- The layer object one dispatch step of `create_hidden_layers` builds from
one entry, given the running `in_channels` at that entry; `False` for an
invalid tag (on which the factory raises instead of building). -/
def entry_builds (in_channels : Nat) (e : SpecEntry) (l : Layer) : Prop :=
  if lower e.tag = "conv" then
    l = Layer.conv2d in_channels (e.args.getD 0 0) (e.args.getD 1 0)
      (e.args.getD 2 0) (e.args.getD 3 0)
  else if lower e.tag = "maxpool" then
    l = Layer.maxPool2d (e.args.getD 0 0) (e.args.getD 1 0) (e.args.getD 2 0)
  else if lower e.tag = "avgpool" then
    l = Layer.avgPool2d (e.args.getD 0 0) (e.args.getD 1 0) (e.args.getD 2 0)
  else if lower e.tag = "adaptivemaxpool" then
    l = Layer.adaptiveMaxPool2d (e.args.getD 0 0, e.args.getD 1 0)
  else if lower e.tag = "adaptiveavgpool" then
    l = Layer.adaptiveAvgPool2d (e.args.getD 0 0, e.args.getD 1 0)
  else if lower e.tag = "linear" then
    l = Layer.linear (e.args.getD 0 0) (e.args.getD 1 0)
  else
    False

/-- Two spec entries that differ at most in the capitalisation of their tag. -/
def TagEquiv (a b : SpecEntry) : Prop :=
  lower a.tag = lower b.tag ∧ a.args = b.args

instance (a b : SpecEntry) : Decidable (TagEquiv a b) := by
  unfold TagEquiv; infer_instance

/-! ### The seeded-construction model for parameter initialisation

`CNN.initialise_all_parameters` (lines 106-109 of `CNN.py`) delegates to
`Base_Network.initialise_parameters`, and `Base_Network.__init__` seeds the
process-wide generator with `random_seed`; neither is under `src/`, so the
generator and the initialiser are modelled from the spec ("random_seed: seed
for reproducible initialization"; "reseeding a process-wide generator before
initialization"). The process-wide generator state is a `Nat` threaded
explicitly; a weight tensor is abstracted to one value drawn per
weight-bearing layer. -/

/-- Modelled from the spec: `Base_Network.set_all_random_seeds` is not under
`src/`. "Global random seeding for reproducibility: reseeding a process-wide
generator before initialization" — the incoming generator state is discarded
and replaced by the seed. -/
def set_all_random_seeds (random_seed : Nat) : Nat → Nat :=
  fun _ => random_seed

/-- One draw from the modelled process-wide generator (a linear congruential
step; any deterministic step works for the properties stated here). -/
def rand_step (g : Nat) : Nat × Nat :=
  let g2 := (6364136223846793005 * g + 1442695040888963407) % 2 ^ 64
  (g2, g2)

/-- Modelled from the spec: `Base_Network.initialise_parameters` is not under
`src/`. Per the spec it applies the named scheme "uniformly to every weight
tensor of every hidden and output layer that owns trainable parameters
(convolutions, linear layers, ...); pooling layers have no parameters and are
skipped silently", and `"default"` means "leave the framework's built-in
initialization untouched". `none` stands for a layer whose parameters this
pass did not write. -/
def initialise_layer_params (initialiser : String) (l : Layer) (g : Nat) :
    Option Nat × Nat :=
  if initialiser = "default" then (none, g)
  else
    match l with
    | .conv2d .. => let (v, g2) := rand_step g; (some v, g2)
    | .linear .. => let (v, g2) := rand_step g; (some v, g2)
    | _ => (none, g)

/-- Modelled from the spec (see `initialise_layer_params`): the initialisation
pass over an ordered list of layers, threading the generator state. -/
def initialise_parameters (initialiser : String) (layers : List Layer)
    (g : Nat) : List (Option Nat) × Nat :=
  match layers with
  | [] => ([], g)
  | l :: rest =>
    let (p, g2) := initialise_layer_params initialiser l g
    let (ps, g3) := initialise_parameters initialiser rest g2
    (p :: ps, g3)

/-- `CNN.initialise_all_parameters` (lines 106-109): initialise the hidden
layers, then the output layers. -/
def initialise_all_parameters (initialiser : String) (net : Network)
    (g : Nat) : (List (Option Nat) × List (Option Nat)) × Nat :=
  let (hp, g2) := initialise_parameters initialiser net.hidden_layers g
  let (op, g3) := initialise_parameters initialiser net.output_layers g2
  ((hp, op), g3)

/-- Modelled from the spec: the full `Base_Network.__init__` pipeline with the
process-wide generator state passed explicitly — seed the generator, then
"validate → build hidden layers → build output layers → initialize
parameters". Returns the constructed network with its initial parameter
values, plus the final generator state. -/
def constructCNN (input_dim : Nat) (hidden_layers_info : List SpecEntry)
    (output_dim : OutputDim) (initialiser : String) (random_seed : Nat)
    (g : Nat) :
    Except BuildError (Network × (List (Option Nat) × List (Option Nat))) × Nat :=
  let g0 := set_all_random_seeds random_seed g
  match buildCNN input_dim hidden_layers_info output_dim with
  | .error e => (.error e, g0)
  | .ok net =>
    let (params, g1) := initialise_all_parameters initialiser net g0
    (.ok (net, params), g1)

/-! ## Basic facts about the `Except` embedding -/

lemma except_map_ok {ε α β : Type _} {f : α → β} {x : Except ε α} {y : β}
    (h : x.map f = Except.ok y) : ∃ a, x = Except.ok a ∧ y = f a := by
  cases x with
  | ok a => exact ⟨a, rfl, (Except.ok.inj h).symm⟩
  | error e => simp [Except.map] at h

lemma except_map_eq_error {ε α β : Type _} {f : α → β} {x : Except ε α} {c : ε} :
    x.map f = Except.error c ↔ x = Except.error c := by
  cases x <;> simp [Except.map]

lemma in_channels_before_nil (ic : Nat) : in_channels_before ic [] = ic := rfl

lemma in_channels_before_cons (ic : Nat) (e : SpecEntry) (t : List SpecEntry) :
    in_channels_before ic (e :: t) =
      in_channels_before (if lower e.tag = "conv" then e.args.getD 0 0 else ic) t :=
  rfl

/-! ## The structure of a successful `create_hidden_layers` run -/

/-- A successful `create_hidden_layers` run returns one layer per entry, in
order, each built by the dispatch rule of its entry's tag at the running
`in_channels` reached there. -/
lemma create_hidden_layers_ok_spec :
    ∀ (info : List SpecEntry) (ic : Nat) (layers : List Layer),
      create_hidden_layers ic info = .ok layers →
      layers.length = info.length ∧
      ∀ i (hi : i < info.length) (hl : i < layers.length),
        entry_builds (in_channels_before ic (info.take i)) (info.get ⟨i, hi⟩)
          (layers.get ⟨i, hl⟩) := by
  intro info
  induction info with
  | nil =>
    intro ic layers h
    rw [create_hidden_layers] at h
    cases h
    exact ⟨rfl, fun i hi _ => absurd hi (Nat.not_lt_zero i)⟩
  | cons e rest ih =>
    intro ic layers h
    rw [create_hidden_layers] at h
    by_cases hmem : lower e.tag ∈ valid_cnn_hidden_layer_types
    · rw [if_pos hmem] at h
      have hdisj : lower e.tag = "conv" ∨ lower e.tag = "maxpool" ∨
          lower e.tag = "avgpool" ∨ lower e.tag = "adaptivemaxpool" ∨
          lower e.tag = "adaptiveavgpool" ∨ lower e.tag = "linear" := by
        simpa [valid_cnn_hidden_layer_types] using hmem
      rcases hdisj with ht | ht | ht | ht | ht | ht <;>
        simp only [ht, reduceIte] at h <;>
        obtain ⟨ls, hls, rfl⟩ := except_map_ok h <;>
        obtain ⟨hlen, hpos⟩ := ih _ ls hls <;>
        refine ⟨by simp [hlen], ?_⟩ <;>
        intro i hi hl <;>
        cases i with
        | zero => simp [entry_builds, ht, in_channels_before]
        | succ j =>
          have hi2 : j < rest.length := by simpa using hi
          have hl2 : j < ls.length := by simpa using hl
          have hstep := hpos j hi2 hl2
          simpa [in_channels_before_cons, ht] using hstep
    · rw [if_neg hmem] at h
      exact Except.noConfusion h

/-- A successful `create_hidden_layers` run only ever saw valid tags: the
per-entry assertion would otherwise have raised. -/
lemma create_hidden_layers_ok_valid :
    ∀ (info : List SpecEntry) (ic : Nat) (layers : List Layer),
      create_hidden_layers ic info = .ok layers →
      ∀ e ∈ info, lower e.tag ∈ valid_cnn_hidden_layer_types := by
  intro info
  induction info with
  | nil => intro ic layers _ e he; cases he
  | cons a rest ih =>
    intro ic layers h f hf
    rw [create_hidden_layers] at h
    by_cases hmem : lower a.tag ∈ valid_cnn_hidden_layer_types
    · rcases List.mem_cons.mp hf with rfl | hf2
      · exact hmem
      · rw [if_pos hmem] at h
        have hdisj : lower a.tag = "conv" ∨ lower a.tag = "maxpool" ∨
            lower a.tag = "avgpool" ∨ lower a.tag = "adaptivemaxpool" ∨
            lower a.tag = "adaptiveavgpool" ∨ lower a.tag = "linear" := by
          simpa [valid_cnn_hidden_layer_types] using hmem
        rcases hdisj with ht | ht | ht | ht | ht | ht <;>
          simp only [ht, reduceIte] at h <;>
          obtain ⟨ls, hls, rfl⟩ := except_map_ok h <;>
          exact ih _ ls hls f hf2
    · rw [if_neg hmem] at h
      exact Except.noConfusion h

/-- On a valid tag, `entry_builds` forces the layer kind to be the tag. -/
lemma entry_builds_kind {ic : Nat} {e : SpecEntry} {l : Layer}
    (h : entry_builds ic e l)
    (hv : lower e.tag ∈ valid_cnn_hidden_layer_types) :
    layer_kind l = lower e.tag := by
  have hdisj : lower e.tag = "conv" ∨ lower e.tag = "maxpool" ∨
      lower e.tag = "avgpool" ∨ lower e.tag = "adaptivemaxpool" ∨
      lower e.tag = "adaptiveavgpool" ∨ lower e.tag = "linear" := by
    simpa [valid_cnn_hidden_layer_types] using hv
  rcases hdisj with ht | ht | ht | ht | ht | ht <;>
    rw [entry_builds] at h <;>
    simp only [ht, reduceIte] at h <;>
    subst h <;>
    simp [layer_kind, ht]

/-- The last constructed hidden layer corresponds to the last spec entry. -/
lemma create_hidden_layers_ok_getLast {info : List SpecEntry} {ic : Nat}
    {layers : List Layer} {e : SpecEntry}
    (h : create_hidden_layers ic info = .ok layers)
    (hlast : info.getLast? = some e) :
    ∃ l, layers.getLast? = some l ∧
      entry_builds (in_channels_before ic (info.take (info.length - 1))) e l := by
  obtain ⟨hlen, hpos⟩ := create_hidden_layers_ok_spec info ic layers h
  have hne : info ≠ [] := by rintro rfl; simp at hlast
  have hpos0 : 0 < info.length := List.length_pos.mpr hne
  have hi : info.length - 1 < info.length := Nat.sub_lt hpos0 Nat.one_pos
  have hl : info.length - 1 < layers.length := by rw [hlen]; exact hi
  have hb := hpos (info.length - 1) hi hl
  have he : info.get ⟨info.length - 1, hi⟩ = e := by
    rw [List.getLast?_eq_getElem?, List.getElem?_eq_getElem hi] at hlast
    simpa [List.get_eq_getElem] using Option.some.inj hlast
  have hlayers : layers.getLast? = some (layers.get ⟨info.length - 1, hl⟩) := by
    rw [List.getLast?_eq_getElem?]
    have : layers.length - 1 = info.length - 1 := by rw [hlen]
    rw [this, List.getElem?_eq_getElem hl]
    simp [List.get_eq_getElem]
  exact ⟨layers.get ⟨info.length - 1, hl⟩, hlayers, he ▸ hb⟩

/-! ## The structure of `create_output_layers` -/

/-- A successful `create_output_layers` run: one head per normalised output
dimension, in order, all with the same input width. -/
lemma create_output_layers_ok {info : List SpecEntry} {hidden : List Layer}
    {od : OutputDim} {outs : List Layer} {odl : List Nat}
    (h : create_output_layers info hidden od = .ok (outs, odl)) :
    ∃ w, outs = (normalise_output_dim od).map (fun d => Layer.linear w d) ∧
      odl = normalise_output_dim od := by
  cases hg : info.getLast? with
  | none => rw [create_output_layers, hg] at h; exact absurd h (by simp)
  | some last_info =>
    simp only [create_output_layers, hg] at h
    split at h
    · exact absurd h (by simp)
    · obtain ⟨h1, h2⟩ := Prod.mk.inj (Except.ok.inj h)
      exact ⟨_, h1.symm, h2.symm⟩

/-- `create_output_layers` when the last spec entry is an adaptive pool and
the last hidden layer is the corresponding adaptive-pool object. -/
lemma create_output_layers_adaptive {info : List SpecEntry}
    {hidden : List Layer} {od : OutputDim} {e : SpecEntry} {H W : Nat}
    (hlast : info.getLast? = some e)
    (ht : lower e.tag ∈ ["adaptivemaxpool", "adaptiveavgpool"])
    (hm : hidden.getLast? = some (.adaptiveMaxPool2d (H, W)) ∨
      hidden.getLast? = some (.adaptiveAvgPool2d (H, W))) :
    create_output_layers info hidden od =
      .ok ((normalise_output_dim od).map (fun d => Layer.linear (H * W) d),
        normalise_output_dim od) := by
  rcases hm with hm | hm <;> simp [create_output_layers, hlast, hm, ht]

/-- `create_output_layers` when the last spec entry is `linear` and the last
hidden layer is a linear object. -/
lemma create_output_layers_linear_last {info : List SpecEntry}
    {hidden : List Layer} {od : OutputDim} {e : SpecEntry} {nin nout : Nat}
    (hlast : info.getLast? = some e)
    (ht : lower e.tag = "linear")
    (hm : hidden.getLast? = some (.linear nin nout)) :
    create_output_layers info hidden od =
      .ok ((normalise_output_dim od).map (fun d => Layer.linear nout d),
        normalise_output_dim od) := by
  simp [create_output_layers, hlast, hm, ht]

/-- Unfolding a successful `buildCNN` run into its three stages. -/
lemma buildCNN_ok {i : Nat} {info : List SpecEntry} {od : OutputDim}
    {net : Network} (h : buildCNN i info od = .ok net) :
    check_cnn_hidden_layers_valid info = .ok () ∧
    ∃ hidden outs odl,
      create_hidden_layers i info = .ok hidden ∧
      create_output_layers info hidden od = .ok (outs, odl) ∧
      net = ⟨hidden, outs, odl⟩ := by
  unfold buildCNN at h
  cases hc : check_cnn_hidden_layers_valid info with
  | error e => simp [hc] at h
  | ok u =>
    cases u
    cases hh : create_hidden_layers i info with
    | error e => simp [hc, hh] at h
    | ok hidden =>
      cases ho : create_output_layers info hidden od with
      | error e => simp [hc, hh, ho] at h
      | ok p =>
        obtain ⟨outs, odl⟩ := p
        refine ⟨rfl, hidden, outs, odl, rfl, ho, ?_⟩
        simp [hc, hh, ho] at h
        exact h.symm

/-! ## The validator on an invalid specification -/

/-- A specification containing an invalid tag makes the validator raise the
error naming that tag (the first invalid one) and the valid set. -/
lemma check_invalid_raises :
    ∀ (info : List SpecEntry),
      (∃ e ∈ info, lower e.tag ∉ valid_cnn_hidden_layer_types) →
      ∃ name, (∃ e ∈ info, lower e.tag = name) ∧
        name ∉ valid_cnn_hidden_layer_types ∧
        check_cnn_hidden_layers_valid info =
          .error (.valueError (layer_name_not_valid_msg name)) := by
  intro info
  induction info with
  | nil => rintro ⟨e, he, _⟩; cases he
  | cons a rest ih =>
    rintro ⟨e, he, hbad⟩
    by_cases ha : lower a.tag ∈ valid_cnn_hidden_layer_types
    · have he2 : e ∈ rest := by
        rcases List.mem_cons.mp he with rfl | h2
        · exact absurd ha hbad
        · exact h2
      obtain ⟨name, ⟨f, hf, hfn⟩, hnv, hcheck⟩ := ih ⟨e, he2, hbad⟩
      exact ⟨name, ⟨f, List.mem_cons_of_mem a hf, hfn⟩, hnv, by
        rw [check_cnn_hidden_layers_valid, if_pos ha]; exact hcheck⟩
    · exact ⟨lower a.tag, ⟨a, List.mem_cons_self a rest, rfl⟩, ha, by
        rw [check_cnn_hidden_layers_valid, if_neg ha]⟩

/-! ## Case-insensitivity: every use of a tag goes through `lower` -/

/-- `create_hidden_layers` only looks at entries through their lowercased tag
and their argument list. -/
lemma create_hidden_layers_congr :
    ∀ {info1 info2 : List SpecEntry}, List.Forall₂ TagEquiv info1 info2 →
      ∀ ic, create_hidden_layers ic info1 = create_hidden_layers ic info2 := by
  intro info1 info2 hf
  induction hf with
  | nil => intro ic; rfl
  | cons hab _ ih =>
    intro ic
    obtain ⟨htag, hargs⟩ := hab
    rw [create_hidden_layers, create_hidden_layers, htag, hargs]
    simp only [ih]

/-- The validator only looks at entries through their lowercased tag. -/
lemma check_congr :
    ∀ {info1 info2 : List SpecEntry}, List.Forall₂ TagEquiv info1 info2 →
      check_cnn_hidden_layers_valid info1 = check_cnn_hidden_layers_valid info2 := by
  intro info1 info2 hf
  induction hf with
  | nil => rfl
  | cons hab _ ih =>
    rw [check_cnn_hidden_layers_valid, check_cnn_hidden_layers_valid, hab.1, ih]

/-- Two `Forall₂`-related lists have related last elements. -/
lemma forall₂_getLast? {α β : Type _} {R : α → β → Prop} :
    ∀ {l1 : List α} {l2 : List β}, List.Forall₂ R l1 l2 →
      (l1.getLast? = none ∧ l2.getLast? = none) ∨
      ∃ a b, l1.getLast? = some a ∧ l2.getLast? = some b ∧ R a b
  | [], [], _ => Or.inl ⟨rfl, rfl⟩
  | a :: t1, b :: t2, .cons hab hrest => by
    match t1, t2, hrest with
    | [], [], _ => exact Or.inr ⟨a, b, rfl, rfl, hab⟩
    | c :: u1, d :: u2, hrest2 =>
      rcases forall₂_getLast? hrest2 with ⟨h1, _⟩ | ⟨x, y, hx, hy, hxy⟩
      · simp at h1
      · exact Or.inr ⟨x, y, by rw [List.getLast?_cons_cons]; exact hx,
          by rw [List.getLast?_cons_cons]; exact hy, hxy⟩

/-- `create_output_layers` only looks at the spec through the lowercased tag
of its last entry. -/
lemma create_output_layers_congr {info1 info2 : List SpecEntry}
    (hf : List.Forall₂ TagEquiv info1 info2) (hidden : List Layer)
    (od : OutputDim) :
    create_output_layers info1 hidden od = create_output_layers info2 hidden od := by
  rcases forall₂_getLast? hf with ⟨h1, h2⟩ | ⟨a, b, ha, hb2, hab⟩
  · rw [create_output_layers, create_output_layers, h1, h2]
  · simp only [create_output_layers, ha, hb2]
    rw [hab.1]

/-! ## The claims -/

/-- C1: for every specification whose last hidden entry is an adaptive pool
`[tag, H, W]`, the input width of every constructed output head is `H * W`
(the channel count is not multiplied in); for a last entry `["linear", in,
out]`, the input width of every output head is `out`. -/
theorem C1_output_head_input_width (input_dim : Nat) (info : List SpecEntry)
    (od : OutputDim) (net : Network) (e : SpecEntry)
    (hb : buildCNN input_dim info od = .ok net)
    (hlast : info.getLast? = some e) :
    (∀ H W, lower e.tag ∈ ["adaptivemaxpool", "adaptiveavgpool"] →
      e.args = [H, W] →
      ∀ l ∈ net.output_layers, ∃ d, l = Layer.linear (H * W) d) ∧
    (∀ nin nout, lower e.tag = "linear" → e.args = [nin, nout] →
      ∀ l ∈ net.output_layers, ∃ d, l = Layer.linear nout d) := by
  obtain ⟨-, hidden, outs, odl, hh, ho, rfl⟩ := buildCNN_ok hb
  constructor
  · intro H W htag hargs l hl
    obtain ⟨ll, hll, hbuilt⟩ := create_hidden_layers_ok_getLast hh hlast
    have hm : hidden.getLast? = some (.adaptiveMaxPool2d (H, W)) ∨
        hidden.getLast? = some (.adaptiveAvgPool2d (H, W)) := by
      have htag2 : lower e.tag = "adaptivemaxpool" ∨
          lower e.tag = "adaptiveavgpool" := by simpa using htag
      rcases htag2 with ht | ht
      · left
        rw [entry_builds] at hbuilt
        simp only [ht, reduceIte, hargs, List.getD_cons_zero,
          List.getD_cons_succ] at hbuilt
        rw [hll, hbuilt]
      · right
        rw [entry_builds] at hbuilt
        simp only [ht, reduceIte, hargs, List.getD_cons_zero,
          List.getD_cons_succ] at hbuilt
        rw [hll, hbuilt]
    have hco := @create_output_layers_adaptive info hidden od e H W hlast htag hm
    rw [ho] at hco
    obtain ⟨h1, -⟩ := Prod.mk.inj (Except.ok.inj hco)
    have hl2 : l ∈ outs := hl
    rw [h1] at hl2
    obtain ⟨d, _, rfl⟩ := List.mem_map.mp hl2
    exact ⟨d, rfl⟩
  · intro nin nout htag hargs l hl
    obtain ⟨ll, hll, hbuilt⟩ := create_hidden_layers_ok_getLast hh hlast
    rw [entry_builds] at hbuilt
    simp only [htag, reduceIte, hargs, List.getD_cons_zero,
      List.getD_cons_succ] at hbuilt
    rw [hbuilt] at hll
    have hco := @create_output_layers_linear_last info hidden od e nin nout hlast htag hll
    rw [ho] at hco
    obtain ⟨h1, -⟩ := Prod.mk.inj (Except.ok.inj hco)
    have hl2 : l ∈ outs := hl
    rw [h1] at hl2
    obtain ⟨d, _, rfl⟩ := List.mem_map.mp hl2
    exact ⟨d, rfl⟩

/-- C1 witness: `[["conv",16,3,1,1], ["adaptiveavgpool",4,4]]` with
`output_dim = 10` yields a head of input width `4 * 4 = 16` (not `16 * 16`). -/
theorem C1_output_head_input_width_witness :
    ∃ d, Layer.linear 16 10 = Layer.linear (4 * 4) d :=
  (C1_output_head_input_width 3
      [⟨"conv", [16, 3, 1, 1]⟩, ⟨"adaptiveavgpool", [4, 4]⟩] (.int 10)
      ⟨[Layer.conv2d 3 16 3 1 1, Layer.adaptiveAvgPool2d (4, 4)],
        [Layer.linear 16 10], [10]⟩
      ⟨"adaptiveavgpool", [4, 4]⟩ (by decide) (by decide)).1 4 4 (by decide) rfl
    (Layer.linear 16 10) (by decide)

/-- C2 counterexample: a `linear` entry takes its `in_features` from its own
declared first argument, not from the output channel count of the preceding
`conv` entry: with `[["conv",5,3,1,1], ["linear",7,9]]` the linear layer is
built as `Linear(7, 9)`, not `Linear(5, 9)`. -/
theorem C2_linear_in_features_counterexample :
    create_hidden_layers 1 [⟨"conv", [5, 3, 1, 1]⟩, ⟨"linear", [7, 9]⟩] =
      .ok [Layer.conv2d 1 5 3 1 1, Layer.linear 7 9] ∧
    Layer.linear 7 9 ≠ Layer.linear 5 9 := by
  exact ⟨by decide, by decide⟩

/-- C2 (amended): each `conv` entry's constructed layer takes as `in_channels`
the running channel count (the declared channel count of the most recent
earlier `conv` entry, or the network's `input_dim` if there is none) — pooling
entries and `linear` entries both leave that running count unchanged — while
each `linear` entry's constructed layer takes its `in_features` from its own
declared first argument, not from the running count. -/
theorem C2_channel_threading_amended (ic : Nat) (info : List SpecEntry)
    (layers : List Layer) (h : create_hidden_layers ic info = .ok layers)
    (i : Nat) (hi : i < info.length) (hl : i < layers.length) :
    (lower (info.get ⟨i, hi⟩).tag = "conv" →
      layers.get ⟨i, hl⟩ = Layer.conv2d (in_channels_before ic (info.take i))
        ((info.get ⟨i, hi⟩).args.getD 0 0) ((info.get ⟨i, hi⟩).args.getD 1 0)
        ((info.get ⟨i, hi⟩).args.getD 2 0) ((info.get ⟨i, hi⟩).args.getD 3 0)) ∧
    (lower (info.get ⟨i, hi⟩).tag = "linear" →
      layers.get ⟨i, hl⟩ = Layer.linear ((info.get ⟨i, hi⟩).args.getD 0 0)
        ((info.get ⟨i, hi⟩).args.getD 1 0)) := by
  have hb := (create_hidden_layers_ok_spec info ic layers h).2 i hi hl
  constructor <;> intro ht <;> rw [entry_builds] at hb <;>
    simp only [ht, reduceIte] at hb <;> exact hb

/-- C2 witness: in `[["conv",5,...], ["maxpool",...], ["conv",8,...],
["linear",7,9]]` the second conv gets `in_channels` 5 threaded through the
pool. -/
theorem C2_channel_threading_amended_witness :
    ([Layer.conv2d 1 5 3 1 1, Layer.maxPool2d 2 2 0, Layer.conv2d 5 8 3 1 0,
        Layer.linear 7 9] : List Layer).get ⟨2, by decide⟩ =
      Layer.conv2d
        (in_channels_before 1 [⟨"conv", [5, 3, 1, 1]⟩, ⟨"maxpool", [2, 2, 0]⟩])
        8 3 1 0 :=
  (C2_channel_threading_amended 1
    [⟨"conv", [5, 3, 1, 1]⟩, ⟨"maxpool", [2, 2, 0]⟩, ⟨"conv", [8, 3, 1, 0]⟩,
      ⟨"linear", [7, 9]⟩]
    [Layer.conv2d 1 5 3 1 1, Layer.maxPool2d 2 2 0, Layer.conv2d 5 8 3 1 0,
      Layer.linear 7 9]
    (by decide) 2 (by decide) (by decide)).1 (by decide)

/-- C3: a specification containing an entry with an invalid tag makes
construction fail during validation — before any layer is built — with an
error naming the offending (lowercased) tag and the set of valid tags. -/
theorem C3_invalid_tag_raises_before_build (input_dim : Nat)
    (info : List SpecEntry) (od : OutputDim)
    (hbad : ∃ e ∈ info, lower e.tag ∉ valid_cnn_hidden_layer_types) :
    ∃ name, (∃ e ∈ info, lower e.tag = name) ∧
      name ∉ valid_cnn_hidden_layer_types ∧
      check_cnn_hidden_layers_valid info =
        .error (.valueError (layer_name_not_valid_msg name)) ∧
      buildCNN input_dim info od =
        .error (.valueError (layer_name_not_valid_msg name)) := by
  obtain ⟨name, hn, hnv, hcheck⟩ := check_invalid_raises info hbad
  refine ⟨name, hn, hnv, hcheck, ?_⟩
  simp only [buildCNN, hcheck]

/-- C3 witness: the tag `"dense"` is rejected by the validator and
construction returns its error. -/
theorem C3_invalid_tag_raises_before_build_witness :
    ∃ name, (∃ e ∈ ([⟨"dense", [3, 4]⟩] : List SpecEntry), lower e.tag = name) ∧
      name ∉ valid_cnn_hidden_layer_types ∧
      check_cnn_hidden_layers_valid [⟨"dense", [3, 4]⟩] =
        .error (.valueError (layer_name_not_valid_msg name)) ∧
      buildCNN 2 [⟨"dense", [3, 4]⟩] (.int 1) =
        .error (.valueError (layer_name_not_valid_msg name)) :=
  C3_invalid_tag_raises_before_build 2 [⟨"dense", [3, 4]⟩] (.int 1)
    ⟨⟨"dense", [3, 4]⟩, by decide, by decide⟩

/-- C4: when the last hidden entry's tag is neither `linear` nor an
adaptive-pool variant, `create_output_layers` raises the "Don't know
dimensions for output layer" error and no output head is constructed. -/
theorem C4_nonterminal_last_layer_error (info : List SpecEntry)
    (hidden : List Layer) (od : OutputDim) (e : SpecEntry)
    (hlast : info.getLast? = some e)
    (hno : lower e.tag ∉ ["adaptivemaxpool", "adaptiveavgpool", "linear"]) :
    create_output_layers info hidden od =
      .error (.valueError dont_know_dimensions_msg) := by
  obtain ⟨h1, h2, h3⟩ : ¬lower e.tag = "adaptivemaxpool" ∧
      ¬lower e.tag = "adaptiveavgpool" ∧ ¬lower e.tag = "linear" := by
    simpa using hno
  simp [create_output_layers, hlast, h1, h2, h3]

/-- C4 witness: a specification ending in `maxpool` gets the "Don't know
dimensions" error. -/
theorem C4_nonterminal_last_layer_error_witness :
    create_output_layers [⟨"conv", [8, 3, 1, 1]⟩, ⟨"maxpool", [2, 2, 0]⟩]
      [Layer.conv2d 1 8 3 1 1, Layer.maxPool2d 2 2 0] (.int 5) =
      .error (.valueError dont_know_dimensions_msg) :=
  C4_nonterminal_last_layer_error _ _ _ ⟨"maxpool", [2, 2, 0]⟩ (by decide)
    (by decide)

/-- C5: a successful construction makes exactly one output head per requested
output dimension — `ns.length` heads, with the requested sizes in the
requested order, when `output_dim` is a list `ns`, and exactly one head when
it is a single integer. -/
theorem C5_one_head_per_output_dim (input_dim : Nat) (info : List SpecEntry)
    (od : OutputDim) (net : Network)
    (hb : buildCNN input_dim info od = .ok net) :
    (∀ ns, od = OutputDim.list ns → net.output_layers.length = ns.length ∧
      ∃ w, net.output_layers = ns.map fun d => Layer.linear w d) ∧
    (∀ n, od = OutputDim.int n → net.output_layers.length = 1 ∧
      ∃ w, net.output_layers = [Layer.linear w n]) := by
  obtain ⟨-, hidden, outs, odl, hh, ho, rfl⟩ := buildCNN_ok hb
  obtain ⟨w, houts, hodl⟩ := create_output_layers_ok ho
  constructor
  · rintro ns rfl
    have h2 : outs = ns.map fun d => Layer.linear w d := by
      simpa [normalise_output_dim] using houts
    exact ⟨by show outs.length = ns.length; simp [h2], w, h2⟩
  · rintro n rfl
    have h2 : outs = [Layer.linear w n] := by
      simpa [normalise_output_dim] using houts
    exact ⟨by show outs.length = 1; simp [h2], w, h2⟩

/-- C5 witness: `output_dim = [2, 3]` yields two heads with sizes 2 and 3 in
that order. -/
theorem C5_one_head_per_output_dim_witness :
    (⟨[Layer.linear 3 4], [Layer.linear 4 2, Layer.linear 4 3], [2, 3]⟩ :
        Network).output_layers.length = [2, 3].length ∧
    ∃ w, (⟨[Layer.linear 3 4], [Layer.linear 4 2, Layer.linear 4 3], [2, 3]⟩ :
        Network).output_layers = [2, 3].map fun d => Layer.linear w d :=
  (C5_one_head_per_output_dim 1 [⟨"linear", [3, 4]⟩] (.list [2, 3])
    ⟨[Layer.linear 3 4], [Layer.linear 4 2, Layer.linear 4 3], [2, 3]⟩
    (by decide)).1 [2, 3] rfl

/-- C6: a successful `create_hidden_layers` run returns one constructed layer
per specification entry, in the same order, each layer's kind determined by
its entry's (lowercased) tag. -/
theorem C6_hidden_layers_length_order (ic : Nat) (info : List SpecEntry)
    (layers : List Layer) (h : create_hidden_layers ic info = .ok layers) :
    layers.length = info.length ∧
    ∀ i (hi : i < info.length) (hl : i < layers.length),
      layer_kind (layers.get ⟨i, hl⟩) = lower (info.get ⟨i, hi⟩).tag := by
  obtain ⟨hlen, hpos⟩ := create_hidden_layers_ok_spec info ic layers h
  refine ⟨hlen, fun i hi hl => ?_⟩
  exact entry_builds_kind (hpos i hi hl)
    (create_hidden_layers_ok_valid info ic layers h _
      (List.mem_iff_get.mpr ⟨⟨i, hi⟩, rfl⟩))

/-- C6 witness: a one-entry spec gives a one-layer result of the right kind. -/
theorem C6_hidden_layers_length_order_witness :
    layer_kind (([Layer.conv2d 1 4 3 1 1] : List Layer).get ⟨0, by decide⟩) =
      lower (([⟨"CONV", [4, 3, 1, 1]⟩] : List SpecEntry).get ⟨0, by decide⟩).tag :=
  (C6_hidden_layers_length_order 1 [⟨"CONV", [4, 3, 1, 1]⟩]
    [Layer.conv2d 1 4 3 1 1] (by decide)).2 0 (by decide) (by decide)

/-- C7: constructing the network twice with the same arguments, the same
`random_seed` and a non-default initialiser yields identical results — in
particular identical initial parameter values — whatever the process-wide
generator state was before each construction (the seed overwrites it). -/
theorem C7_seeded_construction_deterministic (input_dim : Nat)
    (info : List SpecEntry) (od : OutputDim) (initialiser : String)
    (random_seed : Nat) (_hinit : initialiser ≠ "default") (g1 g2 : Nat) :
    (constructCNN input_dim info od initialiser random_seed g1).1 =
    (constructCNN input_dim info od initialiser random_seed g2).1 := rfl

/-- C7 witness: two constructions from very different prior generator states
agree. -/
theorem C7_seeded_construction_deterministic_witness :
    (constructCNN 1 [⟨"linear", [4, 2]⟩] (.int 2) "xavier" 42 0).1 =
    (constructCNN 1 [⟨"linear", [4, 2]⟩] (.int 2) "xavier" 42 987654321).1 :=
  C7_seeded_construction_deterministic 1 [⟨"linear", [4, 2]⟩] (.int 2)
    "xavier" 42 (by decide) 0 987654321

/-- C8: after a successful construction the network's `output_dim` field is a
list: a single integer is wrapped into a one-element list and a list is kept
as is. -/
theorem C8_output_dim_normalised (input_dim : Nat) (info : List SpecEntry)
    (od : OutputDim) (net : Network)
    (hb : buildCNN input_dim info od = .ok net) :
    (∀ n, od = OutputDim.int n → net.output_dim = [n]) ∧
    (∀ ns, od = OutputDim.list ns → net.output_dim = ns) := by
  obtain ⟨-, hidden, outs, odl, hh, ho, rfl⟩ := buildCNN_ok hb
  obtain ⟨w, houts, hodl⟩ := create_output_layers_ok ho
  constructor
  · rintro n rfl
    show odl = [n]
    simpa [normalise_output_dim] using hodl
  · rintro ns rfl
    show odl = ns
    simpa [normalise_output_dim] using hodl

/-- C8 witness: `output_dim = 7` is normalised to `[7]`. -/
theorem C8_output_dim_normalised_witness :
    (⟨[Layer.linear 3 4], [Layer.linear 4 7], [7]⟩ : Network).output_dim = [7] :=
  (C8_output_dim_normalised 1 [⟨"linear", [3, 4]⟩] (.int 7)
    ⟨[Layer.linear 3 4], [Layer.linear 4 7], [7]⟩ (by decide)).1 7 rfl

/-- C9: the final `else` branch of `create_hidden_layers` — the
`ValueError("Wrong layer name")` — is unreachable: the per-entry assertion
guarantees one of the six dispatch branches is taken. -/
theorem C9_wrong_layer_name_unreachable (ic : Nat) (info : List SpecEntry) :
    create_hidden_layers ic info ≠ .error (.valueError "Wrong layer name") := by
  induction info generalizing ic with
  | nil =>
    rw [create_hidden_layers]
    exact fun h => Except.noConfusion h
  | cons e rest ih =>
    intro h
    rw [create_hidden_layers] at h
    by_cases hmem : lower e.tag ∈ valid_cnn_hidden_layer_types
    · rw [if_pos hmem] at h
      have hdisj : lower e.tag = "conv" ∨ lower e.tag = "maxpool" ∨
          lower e.tag = "avgpool" ∨ lower e.tag = "adaptivemaxpool" ∨
          lower e.tag = "adaptiveavgpool" ∨ lower e.tag = "linear" := by
        simpa [valid_cnn_hidden_layer_types] using hmem
      rcases hdisj with ht | ht | ht | ht | ht | ht <;>
        simp only [ht, reduceIte] at h <;>
        exact ih _ (except_map_eq_error.mp h)
    · rw [if_neg hmem] at h
      exact BuildError.noConfusion (Except.error.inj h)

/-- C10: tag matching is case-insensitive — two specifications whose entries
differ only in tag capitalisation build the same network (hidden layers and
output heads alike), because each tag is lowercased before every use. -/
theorem C10_tag_case_insensitive (info1 info2 : List SpecEntry)
    (h : List.Forall₂ TagEquiv info1 info2) (input_dim : Nat)
    (od : OutputDim) :
    buildCNN input_dim info1 od = buildCNN input_dim info2 od := by
  have h1 := check_congr h
  have h2 := create_hidden_layers_congr h input_dim
  simp only [buildCNN, h1, h2, create_output_layers_congr h]

/-- C10 witness: `"CONV"`/`"Linear"` build the same network as
`"conv"`/`"linear"`. -/
theorem C10_tag_case_insensitive_witness :
    buildCNN 1 [⟨"CONV", [4, 3, 1, 1]⟩, ⟨"Linear", [4, 2]⟩] (.int 2) =
    buildCNN 1 [⟨"conv", [4, 3, 1, 1]⟩, ⟨"linear", [4, 2]⟩] (.int 2) :=
  C10_tag_case_insensitive _ _
    (.cons ⟨by decide, rfl⟩ (.cons ⟨by decide, rfl⟩ .nil)) 1 (.int 2)

end NNBuilder
